import Mathlib

/-!
# Schema registry of `ent/schema`

A shallow embedding of the five schema descriptors of package `schema`
(`user.go`, `git_hub.go`, `discord.go`, `subscription.go`, `tag.go`) together
with the part of the field and edge declaration API they call, followed by
the structural properties of the registry.
-/

/-- Go's `string`. -/
abbrev GoString := String

/-- Go's `bool`. -/
abbrev GoBool := Bool

namespace field

/-- Modelled from the spec: the semantic types of the field-declaration API
(package `entgo.io/ent/schema/field`, imported by every schema file but not
part of the repository). The spec names string, boolean, timestamp and enumerated
value; the further tags of the library are listed so that a type check is
not trivial. -/
inductive TypeInfo
  | TypeInvalid
  | TypeBool
  | TypeTime
  | TypeJSON
  | TypeUUID
  | TypeBytes
  | TypeEnum
  | TypeString
  | TypeInt
  | TypeFloat64
  deriving DecidableEq, Repr

/-- Modelled from the spec: a value handed to a `default(value)` modifier of
the field-declaration API; the constructor records the Go type of the
argument. -/
inductive DefaultValue
  | bool (v : GoBool)
  | string (v : GoString)
  | int (v : Int)
  deriving DecidableEq, Repr

/-- The semantic type a default value belongs to. -/
def DefaultValue.typeInfo : DefaultValue → TypeInfo
  | .bool _ => .TypeBool
  | .string _ => .TypeString
  | .int _ => .TypeInt

/-- Modelled from the spec: the validated field descriptor returned by the
field-declaration API, "(name, semantic type, modifiers)". The spec observes
the modifiers `optional` (nullable) and `default(value)` (fallback when
unset); the flags `Unique`, `Nillable`, `Immutable` and `Sensitive` of the
library are carried too, so that their absence is a statement about the
source. `Enums` is the enumerated member list of an enum field. -/
structure Descriptor where
  Name : GoString
  Info : TypeInfo
  Unique : GoBool := false
  Nillable : GoBool := false
  Optional : GoBool := false
  Immutable : GoBool := false
  Default : Option DefaultValue := none
  Enums : List GoString := []
  Sensitive : GoBool := false
  deriving DecidableEq, Repr

/-- Builder returned by `field.String`. -/
structure stringBuilder where
  desc : Descriptor
  deriving DecidableEq, Repr

/-- Builder returned by `field.Bool`. -/
structure boolBuilder where
  desc : Descriptor
  deriving DecidableEq, Repr

/-- Builder returned by `field.Time`. -/
structure timeBuilder where
  desc : Descriptor
  deriving DecidableEq, Repr

/-- Builder returned by `field.Enum`. -/
structure enumBuilder where
  desc : Descriptor
  deriving DecidableEq, Repr

/-- A modifier carried by a field descriptor. -/
inductive Modifier
  | unique
  | nillable
  | optional
  | immutable
  | default (v : DefaultValue)
  | sensitive
  deriving DecidableEq, Repr

/-- The modifiers a descriptor carries, in the order of its flags. -/
def Descriptor.modifiers (d : Descriptor) : List Modifier :=
  (if d.Unique then [Modifier.unique] else []) ++
  (if d.Nillable then [Modifier.nillable] else []) ++
  (if d.Optional then [Modifier.optional] else []) ++
  (if d.Immutable then [Modifier.immutable] else []) ++
  (match d.Default with
    | some v => [Modifier.default v]
    | none => []) ++
  (if d.Sensitive then [Modifier.sensitive] else [])

end field

/-- Modelled from the spec: `field.String(name)` of the field-declaration
API, a string field called `name` with no modifier. -/
def field.String (name : GoString) : field.stringBuilder :=
  ⟨{ Name := name, Info := .TypeString }⟩

/-- Modelled from the spec: `field.Bool(name)`, a boolean field called
`name` with no modifier. -/
def field.Bool (name : GoString) : field.boolBuilder :=
  ⟨{ Name := name, Info := .TypeBool }⟩

/-- Modelled from the spec: `field.Time(name)`, a timestamp field called
`name` with no modifier. -/
def field.Time (name : GoString) : field.timeBuilder :=
  ⟨{ Name := name, Info := .TypeTime }⟩

/-- Modelled from the spec: `field.Enum(name)`, an enumerated field called
`name`. The only argument of the call is the field name; the member list
starts empty. -/
def field.Enum (name : GoString) : field.enumBuilder :=
  ⟨{ Name := name, Info := .TypeEnum }⟩

/-- Modelled from the spec: the `optional` modifier on a string field. -/
def field.stringBuilder.Optional (b : field.stringBuilder) : field.stringBuilder :=
  ⟨{ b.desc with Optional := true }⟩

/-- Modelled from the spec: the `optional` modifier on a timestamp field. -/
def field.timeBuilder.Optional (b : field.timeBuilder) : field.timeBuilder :=
  ⟨{ b.desc with Optional := true }⟩

/-- Modelled from the spec: the `default(value)` modifier on a boolean
field; the argument is a Go `bool`. -/
def field.boolBuilder.Default (b : field.boolBuilder) (v : GoBool) : field.boolBuilder :=
  ⟨{ b.desc with Default := some (.bool v) }⟩

namespace edge

/-- Modelled from the spec: the validated edge descriptor returned by the
edge-declaration API (package `entgo.io/ent/schema/edge`, imported by every
schema file but not part of the repository), "(relation name, target entity
type, direction)". `Target` is the name of the target entity type, `Inverse`
tells a "from" edge from a "to" edge, and `Unique` is the single-target
cardinality, which the library sets only through its `Unique` modifier. -/
structure Descriptor where
  Name : GoString
  Target : GoString
  Unique : GoBool := false
  Inverse : GoBool := false
  Required : GoBool := false
  deriving DecidableEq, Repr

/-- Builder returned by `edge.To`. -/
structure assocBuilder where
  desc : Descriptor
  deriving DecidableEq, Repr

/-- Builder returned by `edge.From`. -/
structure inverseBuilder where
  desc : Descriptor
  deriving DecidableEq, Repr

/-- The Go method expression `X.Type` handed to an edge builder, for a type
identifier `X` of package `schema`. The builder keeps the name of the
receiver type `X` and nothing else. -/
structure TypeExpr where
  recv : GoString
  deriving DecidableEq, Repr

end edge

/-- The method expression `X.Type` for the type identifier `X`. -/
def TypeOf (X : GoString) : edge.TypeExpr :=
  ⟨X⟩

/-- Modelled from the spec: `edge.To(name, X.Type)` of the edge-declaration
API, a forward edge called `name` to the entity type `X`, with no
modifier. -/
def edge.To (name : GoString) (t : edge.TypeExpr) : edge.assocBuilder :=
  ⟨{ Name := name, Target := t.recv }⟩

/-- Modelled from the spec: `edge.From(name, X.Type)`, an inverse edge. -/
def edge.From (name : GoString) (t : edge.TypeExpr) : edge.inverseBuilder :=
  ⟨{ Name := name, Target := t.recv, Inverse := true }⟩

/-- Modelled from the spec: the `Unique` modifier of a forward edge, which
makes it a single-target edge. -/
def edge.assocBuilder.Unique (b : edge.assocBuilder) : edge.assocBuilder :=
  ⟨{ b.desc with Unique := true }⟩

namespace ent

/-- Go's `ent.Field`: what a builder placed in a `[]ent.Field` literal
describes. -/
abbrev Field := field.Descriptor

/-- Go's `ent.Edge`: what a builder placed in a `[]ent.Edge` literal
describes. -/
abbrev Edge := edge.Descriptor

/-- A schema type of package `schema`, `type X struct { ent.Schema }`, with
the results of its methods `Fields()` and `Edges()`. -/
structure Interface where
  TypeName : GoString
  Fields : List Field
  Edges : List Edge
  deriving DecidableEq, Repr

end ent

instance : Coe field.stringBuilder ent.Field := ⟨fun b => b.desc⟩

instance : Coe field.boolBuilder ent.Field := ⟨fun b => b.desc⟩

instance : Coe field.timeBuilder ent.Field := ⟨fun b => b.desc⟩

instance : Coe field.enumBuilder ent.Field := ⟨fun b => b.desc⟩

instance : Coe edge.assocBuilder ent.Edge := ⟨fun b => b.desc⟩

instance : Coe edge.inverseBuilder ent.Edge := ⟨fun b => b.desc⟩

namespace schema

/-- Fields of User. -/
def User.Fields : List ent.Field :=
  [ field.String "id",
    field.String "email",
    field.Enum "TODO: Enums",
    field.String "name",
    (field.String "bio").Optional,
    (field.Bool "admin").Default false,
    field.Time "createdAt",
    field.Time "updatedAt",
    (field.Time "deletedAt").Optional ]

/-- Edges of User. -/
def User.Edges : List ent.Edge :=
  [ edge.To "github" (TypeOf "GitHub"),
    edge.To "discord" (TypeOf "Discord"),
    edge.To "servers" (TypeOf "Server"),
    edge.To "posts" (TypeOf "Post"),
    edge.To "reacts" (TypeOf "React"),
    edge.To "subscriptions" (TypeOf "Subscription") ]

/-- Fields of GitHub. -/
def GitHub.Fields : List ent.Field :=
  [ field.String "userId",
    field.String "accountId",
    field.String "username",
    field.String "email" ]

/-- Edges of GitHub. -/
def GitHub.Edges : List ent.Edge :=
  [ edge.To "user" (TypeOf "User") ]

/-- Fields of Discord. -/
def Discord.Fields : List ent.Field :=
  [ field.String "userId",
    field.String "accountId",
    field.String "username",
    field.String "email" ]

/-- Edges of Discord. -/
def Discord.Edges : List ent.Edge :=
  [ edge.To "user" (TypeOf "User") ]

/-- Fields of Subscription. -/
def Subscription.Fields : List ent.Field :=
  [ field.String "id",
    field.Enum "TODO: Enums",
    field.String "refersTo",
    field.Time "createdAt",
    field.Time "updatedAt",
    (field.Time "deletedAt").Optional,
    field.String "userId" ]

/-- Edges of Subscription. -/
def Subscription.Edges : List ent.Edge :=
  [ edge.To "user" (TypeOf "User"),
    edge.To "notifications" (TypeOf "Notification") ]

/-- Fields of Tag. -/
def Tag.Fields : List ent.Field :=
  [ field.String "id",
    field.String "name" ]

/-- Edges of Tag. -/
def Tag.Edges : List ent.Edge :=
  [ edge.To "posts" (TypeOf "Post") ]

/-- User holds the schema definition for the User entity. -/
def User : ent.Interface :=
  ⟨"User", User.Fields, User.Edges⟩

/-- GitHub holds the schema definition for the GitHub entity. -/
def GitHub : ent.Interface :=
  ⟨"GitHub", GitHub.Fields, GitHub.Edges⟩

/-- Discord holds the schema definition for the Discord entity. -/
def Discord : ent.Interface :=
  ⟨"Discord", Discord.Fields, Discord.Edges⟩

/-- Subscription holds the schema definition for the Subscription entity. -/
def Subscription : ent.Interface :=
  ⟨"Subscription", Subscription.Fields, Subscription.Edges⟩

/-- Tag holds the schema definition for the Tag entity. -/
def Tag : ent.Interface :=
  ⟨"Tag", Tag.Fields, Tag.Edges⟩

/-- The schema registry: the schema types that the files of package
`schema` declare, in the order of the data model. -/
def registry : List ent.Interface :=
  [User, GitHub, Discord, Subscription, Tag]

/-- Whether the type identifier `X` names an entity declared in the
registry. -/
def declared (X : GoString) : Bool :=
  registry.any (fun e => e.TypeName == X)

/-- The entity a type identifier resolves to, when the registry declares
one. -/
def resolve (X : GoString) : Option ent.Interface :=
  registry.find? (fun e => e.TypeName == X)

/-- The edges of the registry, as (owner, relation name, target), whose
target is not declared in the registry. -/
def danglingEdges : List (GoString × GoString × GoString) :=
  registry.flatMap (fun e =>
    (e.Edges.filter (fun d => !declared d.Target)).map
      (fun d => (e.TypeName, d.Name, d.Target)))

/-- The edges of the registry, as (owner, relation name, target), whose
target is declared in the registry. -/
def resolvedEdges : List (GoString × GoString × GoString) :=
  registry.flatMap (fun e =>
    (e.Edges.filter (fun d => declared d.Target)).map
      (fun d => (e.TypeName, d.Name, d.Target)))

/-- The field list of User as the data model of the spec words it: id
(string), email (string), role (enum), name (string), bio (string,
optional), admin (boolean, default false), createdAt, updatedAt (time),
deletedAt (time, optional). -/
def dataModel.User.Fields : List ent.Field :=
  [ { Name := "id", Info := .TypeString },
    { Name := "email", Info := .TypeString },
    { Name := "role", Info := .TypeEnum },
    { Name := "name", Info := .TypeString },
    { Name := "bio", Info := .TypeString, Optional := true },
    { Name := "admin", Info := .TypeBool, Default := some (.bool false) },
    { Name := "createdAt", Info := .TypeTime },
    { Name := "updatedAt", Info := .TypeTime },
    { Name := "deletedAt", Info := .TypeTime, Optional := true } ]

/-- The field names of Subscription as the data model of the spec words
them: id, plan, refersTo, createdAt, updatedAt, deletedAt, userId. -/
def dataModel.Subscription.FieldNames : List GoString :=
  ["id", "plan", "refersTo", "createdAt", "updatedAt", "deletedAt", "userId"]

/-- The fields of an entity that are of enum type. -/
def enumFields (e : ent.Interface) : List ent.Field :=
  e.Fields.filter (fun f => f.Info == field.TypeInfo.TypeEnum)

/-- The enum-typed fields of the registry, as (owner, field name, enum
values). -/
def enumFieldNames : List (GoString × GoString × List GoString) :=
  registry.flatMap (fun e => (enumFields e).map (fun f => (e.TypeName, f.Name, f.Enums)))

/-- The fields of the registry declared under the name `n`, as (owner,
field). -/
def fieldsNamed (n : GoString) : List (GoString × ent.Field) :=
  registry.flatMap (fun e =>
    (e.Fields.filter (fun f => f.Name == n)).map (fun f => (e.TypeName, f)))

/-- The fields of the registry that carry at least one modifier, as (owner,
field name, modifiers). -/
def modifiedFields : List (GoString × GoString × List field.Modifier) :=
  registry.flatMap (fun e =>
    (e.Fields.filter (fun f => !f.modifiers.isEmpty)).map
      (fun f => (e.TypeName, f.Name, f.modifiers)))

end schema


namespace schema

/-- C1, evaluated on the code: of the eleven edges declared by the five
entities, six have a target declared in the registry (User, GitHub, Discord
or Subscription) and five do not: the targets Server, Post and React of
User's servers, posts and reacts edges, Notification of Subscription's
notifications edge and Post of Tag's posts edge resolve to no entity of the
registry. -/
theorem C1_dangling_edges :
    danglingEdges =
        [ ("User", "servers", "Server"),
          ("User", "posts", "Post"),
          ("User", "reacts", "React"),
          ("Subscription", "notifications", "Notification"),
          ("Tag", "posts", "Post") ] ∧
      resolvedEdges =
        [ ("User", "github", "GitHub"),
          ("User", "discord", "Discord"),
          ("User", "subscriptions", "Subscription"),
          ("GitHub", "user", "User"),
          ("Discord", "user", "User"),
          ("Subscription", "user", "User") ] ∧
      resolve "GitHub" = some GitHub ∧
      resolve "Server" = none ∧ resolve "Post" = none ∧
      resolve "React" = none ∧ resolve "Notification" = none := by
  decide

/-- C2: for every entity of the registry, the names of the fields returned
by its Fields() are pairwise distinct. -/
theorem C2_field_names_unique :
    ∀ e ∈ registry, (e.Fields.map (fun f => f.Name)).Nodup := by
  decide

/-- C2 at the User entity. -/
theorem C2_field_names_unique_witness :
    User ∈ registry ∧ (User.Fields.map (fun f => f.Name)).Nodup :=
  ⟨by decide, C2_field_names_unique User (by decide)⟩

/-- C3, evaluated on the code: User.Fields() is the nine-field list of the
data model except at its third element, where the code declares the enum
field under the name "TODO: Enums" and the data model under the name role;
types and modifiers agree everywhere, and no field of User is named
role. -/
theorem C3_user_enum_field_name :
    User.Fields =
        dataModel.User.Fields.set 2 { Name := "TODO: Enums", Info := .TypeEnum } ∧
      (User.Fields.get? 2).map (fun f => f.Name) = some "TODO: Enums" ∧
      (dataModel.User.Fields.get? 2).map (fun f => f.Name) = some "role" ∧
      (enumFields User).map (fun f => f.Name) = ["TODO: Enums"] ∧
      (User.Fields.map (fun f => f.Name)).contains "role" = false ∧
      decide (User.Fields = dataModel.User.Fields) = false := by
  decide

/-- C4, refuted as stated: User's edges to GitHub and to Discord, the first
two of User.Edges(), are declared without the unique modifier, exactly like
servers, posts, reacts and subscriptions. -/
theorem C4_github_discord_not_unique :
    User.Edges.map (fun d => (d.Name, d.Target, d.Unique)) =
      [ ("github", "GitHub", false),
        ("discord", "Discord", false),
        ("servers", "Server", false),
        ("posts", "Post", false),
        ("reacts", "React", false),
        ("subscriptions", "Subscription", false) ] := by
  decide

/-- C4 as amended: every edge declared by the five entities is declared
with edge.To and no modifier, so it is a forward edge without the unique
(single-target) modifier, whatever the plurality of its relation name:
github, discord, servers, posts, reacts and subscriptions on User, user on
GitHub, Discord and Subscription, notifications on Subscription and posts on
Tag all have many cardinality. -/
theorem C4_all_edges_many :
    (∀ e ∈ registry, ∀ d ∈ e.Edges,
        d = (edge.To d.Name (TypeOf d.Target)).desc ∧
          d.Unique = false ∧ d.Inverse = false) ∧
      registry.map (fun e => (e.TypeName, e.Edges.map (fun d => d.Name))) =
        [ ("User", ["github", "discord", "servers", "posts", "reacts", "subscriptions"]),
          ("GitHub", ["user"]),
          ("Discord", ["user"]),
          ("Subscription", ["user", "notifications"]),
          ("Tag", ["posts"]) ] := by
  decide

/-- C4 as amended, at GitHub's edge named user. -/
theorem C4_all_edges_many_witness :
    GitHub ∈ registry ∧ (edge.To "user" (TypeOf "User")).desc ∈ GitHub.Edges ∧
      (edge.To "user" (TypeOf "User")).desc =
        (edge.To (edge.To "user" (TypeOf "User")).desc.Name
          (TypeOf (edge.To "user" (TypeOf "User")).desc.Target)).desc ∧
      (edge.To "user" (TypeOf "User")).desc.Unique = false ∧
      (edge.To "user" (TypeOf "User")).desc.Inverse = false :=
  ⟨by decide, by decide,
    C4_all_edges_many.1 GitHub (by decide) (edge.To "user" (TypeOf "User")).desc (by decide)⟩

/-- C5, refuted as stated: the Fields() lists of GitHub and of Discord are
userId, accountId, username, email and contain no field named id. -/
theorem C5_github_discord_no_id :
    GitHub.Fields.map (fun f => f.Name) = ["userId", "accountId", "username", "email"] ∧
      (GitHub.Fields.map (fun f => f.Name)).contains "id" = false ∧
      Discord.Fields.map (fun f => f.Name) = ["userId", "accountId", "username", "email"] ∧
      (Discord.Fields.map (fun f => f.Name)).contains "id" = false := by
  decide

/-- C5 as amended: an entity of the registry declares a field named id
exactly when it is User, Subscription or Tag, and there that field is the
first of Fields() and of string type with no modifier; GitHub and Discord
declare no field named id. -/
theorem C5_id_field :
    ∀ e ∈ registry,
      ((∃ f ∈ e.Fields, f.Name = "id") ↔
          e.TypeName = "User" ∨ e.TypeName = "Subscription" ∨ e.TypeName = "Tag") ∧
        ((∃ f ∈ e.Fields, f.Name = "id") →
          e.Fields.head? = some (field.String "id").desc) := by
  decide

/-- C5 as amended, at the Tag entity. -/
theorem C5_id_field_witness :
    Tag ∈ registry ∧ (∃ f ∈ Tag.Fields, f.Name = "id") ∧
      Tag.Fields.head? = some (field.String "id").desc :=
  ⟨by decide, by decide, (C5_id_field Tag (by decide)).2 (by decide)⟩

/-- C6: every entity of the registry that declares a createdAt or an
updatedAt field also declares a deletedAt field, every deletedAt field is of
time type and optional, and createdAt and updatedAt are not optional. The
entities concerned are User and Subscription; GitHub, Discord and Tag
declare none of the three fields. -/
theorem C6_soft_delete_optional :
    (∀ e ∈ registry,
        (∃ f ∈ e.Fields, f.Name = "createdAt" ∨ f.Name = "updatedAt") →
          (∃ f ∈ e.Fields, f.Name = "deletedAt") ∧
            (∀ f ∈ e.Fields, f.Name = "deletedAt" →
              f.Info = field.TypeInfo.TypeTime ∧ f.Optional = true) ∧
            (∀ f ∈ e.Fields, f.Name = "createdAt" ∨ f.Name = "updatedAt" →
              f.Optional = false)) ∧
      registry.filter
          (fun e => e.Fields.any (fun f => f.Name == "createdAt" || f.Name == "updatedAt")) =
        [User, Subscription] ∧
      registry.filter
          (fun e => e.Fields.all (fun f =>
            f.Name != "createdAt" && f.Name != "updatedAt" && f.Name != "deletedAt")) =
        [GitHub, Discord, Tag] := by
  decide

/-- C6 at the Subscription entity. -/
theorem C6_soft_delete_optional_witness :
    Subscription ∈ registry ∧
      (∃ f ∈ Subscription.Fields, f.Name = "createdAt" ∨ f.Name = "updatedAt") ∧
      (∃ f ∈ Subscription.Fields, f.Name = "deletedAt") ∧
      (∀ f ∈ Subscription.Fields, f.Name = "deletedAt" →
        f.Info = field.TypeInfo.TypeTime ∧ f.Optional = true) ∧
      (∀ f ∈ Subscription.Fields, f.Name = "createdAt" ∨ f.Name = "updatedAt" →
        f.Optional = false) :=
  ⟨by decide, by decide, C6_soft_delete_optional.1 Subscription (by decide) (by decide)⟩

/-- C7: every edge declared by the five entities is a forward ("to") edge,
none is an inverse ("from") edge; and for each X of GitHub and Discord, User
declares a forward edge with target X while X declares a forward edge named
user with target User. -/
theorem C7_all_edges_forward :
    (∀ e ∈ registry, ∀ d ∈ e.Edges, d.Inverse = false) ∧
      (∀ X ∈ [GitHub, Discord],
        (∃ d ∈ User.Edges, d.Target = X.TypeName ∧ d.Inverse = false) ∧
          (∃ d ∈ X.Edges, d.Name = "user" ∧ d.Target = User.TypeName ∧ d.Inverse = false)) ∧
      (edge.To "github" (TypeOf "GitHub")).desc ∈ User.Edges ∧
      (edge.To "discord" (TypeOf "Discord")).desc ∈ User.Edges ∧
      GitHub.Edges = [(edge.To "user" (TypeOf "User")).desc] ∧
      Discord.Edges = [(edge.To "user" (TypeOf "User")).desc] := by
  decide

/-- C7 at User's edge to Discord and at the Discord entity. -/
theorem C7_all_edges_forward_witness :
    (User ∈ registry ∧ (edge.To "discord" (TypeOf "Discord")).desc ∈ User.Edges ∧
        (edge.To "discord" (TypeOf "Discord")).desc.Inverse = false) ∧
      (Discord ∈ [GitHub, Discord] ∧
        (∃ d ∈ User.Edges, d.Target = Discord.TypeName ∧ d.Inverse = false) ∧
        (∃ d ∈ Discord.Edges,
          d.Name = "user" ∧ d.Target = User.TypeName ∧ d.Inverse = false)) :=
  ⟨⟨by decide, by decide,
      C7_all_edges_forward.1 User (by decide)
        (edge.To "discord" (TypeOf "Discord")).desc (by decide)⟩,
    ⟨by decide, C7_all_edges_forward.2.1 Discord (by decide)⟩⟩

/-- C8, evaluated on the code: the enum-typed fields of the registry are
exactly one field of User, the third of its Fields(), and one field of
Subscription, the second of its Fields(), each with an empty list of enum
values, and GitHub, Discord and Tag declare none; but both are declared
under the name "TODO: Enums", where the data model lists role and plan, and
no field of any entity of the registry is named role or plan. -/
theorem C8_enum_field_names :
    enumFieldNames =
        [("User", "TODO: Enums", []), ("Subscription", "TODO: Enums", [])] ∧
      fieldsNamed "role" = [] ∧ fieldsNamed "plan" = [] ∧
      registry.map (fun e => (e.TypeName, (enumFields e).length)) =
        [("User", 1), ("GitHub", 0), ("Discord", 0), ("Subscription", 1), ("Tag", 0)] ∧
      User.Fields.get? 2 = some (field.Enum "TODO: Enums").desc ∧
      Subscription.Fields.get? 1 = some (field.Enum "TODO: Enums").desc ∧
      (dataModel.User.Fields.get? 2).map (fun f => f.Name) = some "role" ∧
      dataModel.Subscription.FieldNames.get? 1 = some "plan" ∧
      User.Fields.map (fun f => f.Name) =
        (dataModel.User.Fields.map (fun f => f.Name)).set 2 "TODO: Enums" ∧
      Subscription.Fields.map (fun f => f.Name) =
        dataModel.Subscription.FieldNames.set 1 "TODO: Enums" ∧
      enumFields GitHub = [] ∧ enumFields Discord = [] ∧ enumFields Tag = [] := by
  decide

/-- C9: GitHub and Discord declare the same shape: the fields userId,
accountId, username, email in this order, each of string type with no
modifier, and the single edge named user with target User; their Fields()
and their Edges() are equal as descriptor lists. -/
theorem C9_github_discord_same_shape :
    GitHub.Fields =
        [ { Name := "userId", Info := .TypeString, Unique := false, Nillable := false,
            Optional := false, Immutable := false, Default := none, Enums := [],
            Sensitive := false },
          { Name := "accountId", Info := .TypeString, Unique := false, Nillable := false,
            Optional := false, Immutable := false, Default := none, Enums := [],
            Sensitive := false },
          { Name := "username", Info := .TypeString, Unique := false, Nillable := false,
            Optional := false, Immutable := false, Default := none, Enums := [],
            Sensitive := false },
          { Name := "email", Info := .TypeString, Unique := false, Nillable := false,
            Optional := false, Immutable := false, Default := none, Enums := [],
            Sensitive := false } ] ∧
      GitHub.Edges =
        [ { Name := "user", Target := "User", Unique := false, Inverse := false,
            Required := false } ] ∧
      GitHub.Fields = Discord.Fields ∧
      GitHub.Edges = Discord.Edges ∧
      resolve "User" = some User := by
  decide

/-- C10: every field of the registry that carries a default modifier has a
default value of the field's declared type; the only such field is
User.admin, of boolean type with default false; and the only modifiers used
in the registry are optional, on User.bio, User.deletedAt and
Subscription.deletedAt, and default, on User.admin. -/
theorem C10_defaults_type_match :
    (∀ e ∈ registry, ∀ f ∈ e.Fields, ∀ v, f.Default = some v → v.typeInfo = f.Info) ∧
      registry.flatMap (fun e =>
          (e.Fields.filter (fun f => f.Default.isSome)).map
            (fun f => (e.TypeName, f.Name, f.Info, f.Default))) =
        [("User", "admin", field.TypeInfo.TypeBool, some (field.DefaultValue.bool false))] ∧
      modifiedFields =
        [ ("User", "bio", [field.Modifier.optional]),
          ("User", "admin", [field.Modifier.default (field.DefaultValue.bool false)]),
          ("User", "deletedAt", [field.Modifier.optional]),
          ("Subscription", "deletedAt", [field.Modifier.optional]) ] := by
  refine ⟨?_, by decide, by decide⟩
  intro e he f hf v hv
  have key : ∀ e ∈ registry, ∀ f ∈ e.Fields,
      f.Default = none ∨ f.Default.map field.DefaultValue.typeInfo = some f.Info := by
    decide
  rcases key e he f hf with h | h
  · rw [h] at hv
    cases hv
  · rw [hv] at h
    simpa using h

/-- C10 at the admin field of User. -/
theorem C10_defaults_type_match_witness :
    User ∈ registry ∧ ((field.Bool "admin").Default false).desc ∈ User.Fields ∧
      ((field.Bool "admin").Default false).desc.Default =
        some (field.DefaultValue.bool false) ∧
      (field.DefaultValue.bool false).typeInfo =
        ((field.Bool "admin").Default false).desc.Info :=
  ⟨by decide, by decide, rfl,
    C10_defaults_type_match.1 User (by decide)
      ((field.Bool "admin").Default false).desc (by decide)
      (field.DefaultValue.bool false) rfl⟩

end schema
